import Mathlib

/-!
Verification development for the subprocess process-lifecycle library.

The definitions below are a shallow embedding of the C++ sources:

* `pipe.cpp` (src/unnamed/part_001): pipe primitives `pipe_read`,
  `pipe_read_all`, `pipe_ignore_and_close` for both native models
  (POSIX `read` and Windows `ReadFile`).
* `builder.cpp`: `Popen::poll`, `Popen::wait`, `Popen::send_signal`,
  `Popen::terminate`, `Popen::kill` (Windows branch, the one present in
  the sources), `Popen::init`, and the two `run` overloads.
* `builder_windows.cpp`: `ProcessBuilder::run_command`.
* `pipevar.hpp` / `basic_types.hpp`: `PipeVar`, `get_pipe_option`,
  `PipeOption`, sentinels and error kinds.

Native OS calls are modelled explicitly: pipe endpoints carry a pending
byte count together with writer-closed / non-blocking / bad-handle flags,
and a blocking POSIX `read` on a pipe returns the transferred count,
`0` exactly at end-of-stream, `-1` on error, and blocks when no data is
available yet; Windows `ReadFile` fails (so the wrapper yields `-1`) on a
broken pipe or a bad handle.  The child process is a record of its
remaining run time, exit code and reactions to console events.  Every
embedded operation additionally returns the list of native calls it
performed, so ordering and absence of native activity are provable.
-/

namespace Subproc

/-- Pipe handles are abstracted as integers; `kBadPipeValue` is the
sentinel for an unused/closed handle (`-1` for an fd, `nullptr` for a
Windows `HANDLE`). -/
abbrev PipeHandle := Int

/-- Sentinel value representing an invalid pipe (basic_types.hpp). -/
def kBadPipeValue : PipeHandle := -1

/-- Sentinel exit status meaning unknown / still running (basic_types.hpp:
`constexpr int kBadReturnCode = -1000`). -/
def kBadReturnCode : Int := -1000

/-- Signal numbers of basic_types.hpp (`SigNum`), Posix values. -/
def PSIGINT : Int := 2

/-- Kill signal number (SigNum.PSIGKILL = 9). -/
def PSIGKILL : Int := 9

/-- Termination signal number (SigNum.PSIGTERM = SIGTERM = 15). -/
def PSIGTERM : Int := 15

/-! ## Pipe endpoint model and the two `pipe_read` implementations -/

/-- State of one readable pipe endpoint as seen by the native layer:
how many bytes are still pending, whether the write end has been closed,
whether the handle was put in non-blocking mode, and whether the handle
itself is invalid. -/
structure PipeState where
  pending : Nat
  writerClosed : Bool
  nonBlocking : Bool
  badHandle : Bool
  deriving Repr, DecidableEq

/-- Result of one native read call: either the call blocks (no data yet on
a blocking handle) or it returns a transfer count / error code. -/
inductive ReadRes
  | blocked
  | val (n : Int)
  deriving Repr, DecidableEq

/-- End-of-stream condition for a pipe endpoint: no pending data and the
peer (writer) has closed, on a valid handle. -/
def atEof (st : PipeState) : Prop :=
  st.pending = 0 ∧ st.writerClosed = true ∧ st.badHandle = false

instance (st : PipeState) : Decidable (atEof st) := by
  unfold atEof; infer_instance

/-- POSIX implementation of `pipe_read` (pipe.cpp): a direct call to
`::read(handle, buffer, size)`.  Modelled with blocking-pipe semantics:
a bad fd yields `-1` (EBADF); a zero-size read returns `0`; available
data is transferred (up to `size` bytes); an empty pipe whose writer has
closed returns `0` (end-of-stream); an empty non-blocking pipe yields
`-1` (EAGAIN); otherwise the call blocks. -/
def posix_pipe_read (st : PipeState) (size : Nat) : ReadRes × PipeState :=
  if st.badHandle then (ReadRes.val (-1), st)
  else if size = 0 then (ReadRes.val 0, st)
  else if 0 < st.pending then
    (ReadRes.val ((min size st.pending : Nat) : Int),
     { st with pending := st.pending - min size st.pending })
  else if st.writerClosed then (ReadRes.val 0, st)
  else if st.nonBlocking then (ReadRes.val (-1), st)
  else (ReadRes.blocked, st)

/-- Native `ReadFile` on a pipe handle: `some (result, bytesRead)` when the
call returns, `none` when it blocks.  A bad handle or a broken pipe
(writer closed, nothing pending) makes the call fail (`result = false`);
an empty non-blocking pipe fails with ERROR_NO_DATA. -/
def winReadFile (st : PipeState) (size : Nat) : Option (Bool × Nat) × PipeState :=
  if st.badHandle then (some (false, 0), st)
  else if size = 0 then (some (true, 0), st)
  else if 0 < st.pending then
    (some (true, min size st.pending), { st with pending := st.pending - min size st.pending })
  else if st.writerClosed then (some (false, 0), st)
  else if st.nonBlocking then (some (false, 0), st)
  else (none, st)

/-- Windows implementation of `pipe_read` (pipe.cpp):
`return result ? static_cast<ssize_t>(bread) : -1;`. -/
def win_pipe_read (st : PipeState) (size : Nat) : ReadRes × PipeState :=
  match winReadFile st size with
  | (none, st1) => (ReadRes.blocked, st1)
  | (some (result, bread), st1) =>
      (if result then ReadRes.val (bread : Int) else ReadRes.val (-1), st1)

/-- The background loop of `pipe_ignore_and_close` (pipe.cpp):
`while (pipe_read(handle, buf, 1024) >= 0) { }` followed by
`pipe_close(handle)`.  `some st` means the loop exited (after which the
handle is closed); `none` means the loop has not exited within `fuel`
iterations (or the thread is stuck in a blocking read). -/
def pipe_ignore_loop : Nat → PipeState → Option PipeState
  | 0, _ => none
  | fuel + 1, st =>
      match posix_pipe_read st 1024 with
      | (ReadRes.blocked, _) => none
      | (ReadRes.val r, st1) =>
          if 0 ≤ r then pipe_ignore_loop fuel st1 else some st1

/-! ## Process model: `Popen` state and the native child process -/

/-- The `Popen` live-process handle (builder.h / builder.cpp): parent-side
stream handles, process id, cached exit status, original command line and
the soft-kill preference. -/
structure Popen where
  cin : PipeHandle
  cout : PipeHandle
  cerr : PipeHandle
  pid : Nat
  returncode : Int
  args : List String
  softKill : Bool
  deriving Repr, DecidableEq

/-- Model of the native child process on the handle/console-event
platform.  `exitTime` is the number of milliseconds until the process
exits naturally (`some 0` = already exited, `none` = would run forever);
`exitCode` is the DWORD reported by `GetExitCodeProcess` once exited.
`breakExits`/`breakCode` and `intExits`/`intCode` describe whether the
child reacts to a console BREAK / Ctrl-C event by exiting and with which
code.  `queryFails`/`waitFails` are fault oracles for
`GetExitCodeProcess` / `WaitForSingleObject`.  `childIds` is what a
process snapshot enumerates as children of this process at call time. -/
structure Child where
  exitTime : Option Nat
  exitCode : Nat
  breakExits : Bool
  breakCode : Nat
  intExits : Bool
  intCode : Nat
  queryFails : Bool
  waitFails : Bool
  childIds : List Nat
  deriving Repr, DecidableEq

/-- Native calls an embedded operation may perform, recorded as a trace. -/
inductive NativeCall
  | waitForSingleObject (ms : Option Nat)
  | getExitCodeProcess
  | getChildProcessIds
  | terminateProcess (code : Nat)
  | terminateProcessById (procId : Nat)
  | genCtrlC
  | genCtrlBreak (pid : Nat)
  | printErrorMsg
  | pipeCreate (readEnd writeEnd : PipeHandle)
  | setInheritable (h : PipeHandle) (inheritable : Bool)
  | createProcess (program : String)
  | closeHandle (h : PipeHandle)
  deriving Repr, DecidableEq

/-- Errors `Popen::wait` / `Popen::poll` can raise. -/
inductive WaitErr
  | timeoutExpired
  | osError
  deriving Repr, DecidableEq

/-- Millisecond argument handed to `WaitForSingleObject` by `Popen::wait`:
`timeout < 0.0 ? INFINITE : timeout * 1000` (builder.cpp); `none` stands
for INFINITE. -/
def msOfTimeout (timeout : Int) : Option Nat :=
  if timeout < 0 then none else some (timeout.toNat * 1000)

/-- Tail of a successful `WaitForSingleObject`: `GetExitCodeProcess`
either fails (OSError) or yields the exit code, which `Popen::wait`
caches in `returncode`. -/
def finishWait (p : Popen) (c : Child) (ms : Option Nat) :
    Option (Except WaitErr (Int × Popen)) × List NativeCall :=
  if c.queryFails then
    (some (Except.error WaitErr.osError),
     [NativeCall.waitForSingleObject ms, NativeCall.getExitCodeProcess])
  else
    (some (Except.ok ((c.exitCode : Int), { p with returncode := (c.exitCode : Int) })),
     [NativeCall.waitForSingleObject ms, NativeCall.getExitCodeProcess])

/-- `Popen::wait(timeout)` (builder.cpp, Windows branch).  If the exit
status is already cached it is returned immediately with no native call.
Otherwise `WaitForSingleObject` runs with the converted timeout:
WAIT_FAILED raises OSError, WAIT_TIMEOUT raises TimeoutExpired, and on
success the exit code is queried and cached.  The outer `none` marks an
infinite wait on a child that never exits (the call never returns). -/
def wait_w (p : Popen) (c : Child) (timeout : Int) :
    Option (Except WaitErr (Int × Popen)) × List NativeCall :=
  if p.returncode ≠ kBadReturnCode then (some (Except.ok (p.returncode, p)), [])
  else if c.waitFails then
    (some (Except.error WaitErr.osError), [NativeCall.waitForSingleObject (msOfTimeout timeout)])
  else
    match msOfTimeout timeout, c.exitTime with
    | some m, some t =>
        if t ≤ m then finishWait p c (some m)
        else (some (Except.error WaitErr.timeoutExpired), [NativeCall.waitForSingleObject (some m)])
    | some m, none =>
        (some (Except.error WaitErr.timeoutExpired), [NativeCall.waitForSingleObject (some m)])
    | none, some _ => finishWait p c none
    | none, none => (none, [NativeCall.waitForSingleObject none])

/-- `Popen::poll()` (builder.cpp, Windows branch): non-blocking wait with
a 0 ms timeout; WAIT_TIMEOUT maps to `false` rather than an error. -/
def poll_w (p : Popen) (c : Child) :
    Except WaitErr (Bool × Popen) × List NativeCall :=
  if p.returncode ≠ kBadReturnCode then (Except.ok (true, p), [])
  else if c.waitFails then
    (Except.error WaitErr.osError, [NativeCall.waitForSingleObject (some 0)])
  else
    match c.exitTime with
    | some t =>
        if t = 0 then
          if c.queryFails then
            (Except.error WaitErr.osError,
             [NativeCall.waitForSingleObject (some 0), NativeCall.getExitCodeProcess])
          else
            (Except.ok (true, { p with returncode := (c.exitCode : Int) }),
             [NativeCall.waitForSingleObject (some 0), NativeCall.getExitCodeProcess])
        else (Except.ok (false, p), [NativeCall.waitForSingleObject (some 0)])
    | none => (Except.ok (false, p), [NativeCall.waitForSingleObject (some 0)])

/-- `Popen::send_signal(signum)` (builder.cpp, Windows branch).  If the
exit status is already cached it returns `false` at once (and, the result
being falsy, prints the last error text).  Otherwise: PSIGKILL enumerates
child processes and hard-terminates the process with exit code 137 plus
each enumerated child; PSIGINT broadcasts a console Ctrl-C event; every
other signal (PSIGTERM included) broadcasts a console BREAK event to the
process group.  The native event/termination calls are modelled as
succeeding.  The method is `const`: the `Popen` value it returns is the
unmodified receiver from every branch. -/
def send_signal_w (p : Popen) (c : Child) (signum : Int) :
    Bool × Popen × Child × List NativeCall :=
  let (result, c1, tr) :=
    if p.returncode ≠ kBadReturnCode then (false, c, ([] : List NativeCall))
    else if signum = PSIGKILL then
      (true, { c with exitTime := some 0, exitCode := 137 },
       [NativeCall.getChildProcessIds, NativeCall.terminateProcess 137] ++
         c.childIds.map NativeCall.terminateProcessById)
    else if signum = PSIGINT then
      (true, if c.intExits then { c with exitTime := some 0, exitCode := c.intCode } else c,
       [NativeCall.genCtrlC])
    else
      (true, if c.breakExits then { c with exitTime := some 0, exitCode := c.breakCode } else c,
       [NativeCall.genCtrlBreak p.pid])
  if result then (result, p, c1, tr) else (result, p, c1, tr ++ [NativeCall.printErrorMsg])

/-- `Popen::terminate()`: `send_signal(PSIGTERM)` (builder.cpp). -/
def terminate_w (p : Popen) (c : Child) : Bool × Popen × Child × List NativeCall :=
  send_signal_w p c PSIGTERM

/-- `Popen::kill()`: soft-kill preference degrades to PSIGTERM, otherwise
PSIGKILL (builder.cpp). -/
def kill_w (p : Popen) (c : Child) : Bool × Popen × Child × List NativeCall :=
  if p.softKill then send_signal_w p c PSIGTERM else send_signal_w p c PSIGKILL

/-! ## The run facade and its overloads -/

/-- Completed-process snapshot (basic_types.hpp `CompletedProcess`). -/
structure CompletedProcess where
  args : List String
  returncode : Int := -1
  cout : String
  cerr : String
  deriving Repr, DecidableEq

/-- Errors the `run` functions can raise: a propagated wait error, a
TimeoutExpired carrying command/timeout/captured output, or a
CalledProcessError carrying command/exit code/captured output
(basic_types.hpp). -/
inductive RunErr
  | waitError (e : WaitErr)
  | timeoutExpired (cmd : List String) (timeout : Int) (cout cerr : String)
  | calledProcessError (cmd : List String) (returncode : Int) (cout cerr : String)
  deriving Repr, DecidableEq

/-- `run(Popen& popen, bool check)` (builder.cpp).  One thread per live
captured stream drains the pipe with `pipe_read_all` and closes it
(setting the handle to `kBadPipeValue`); both threads are joined, then
`popen.wait()` runs with the default infinite timeout (builder.h declares
wait with an infinite default per the spec).  The snapshot takes the
cached exit code, the drained bytes and `popen.args` minus element 0.
When `check` is set the code then throws CalledProcessError — with no
test of the exit code.  `coutData`/`cerrData` are the bytes
`pipe_read_all` obtains from the respective live pipes; the result pairs
the outcome with the native-call trace, `none` marking a wait that never
returns. -/
def run_popen (p : Popen) (c : Child) (coutData cerrData : String) (check : Bool) :
    Option (Except RunErr (CompletedProcess × Popen) × List NativeCall) :=
  let ccout := if p.cout ≠ kBadPipeValue then coutData else ""
  let ccerr := if p.cerr ≠ kBadPipeValue then cerrData else ""
  let p1 := { p with cout := kBadPipeValue, cerr := kBadPipeValue }
  match wait_w p1 c (-1) with
  | (none, _) => none
  | (some (Except.error e), tr) => some (Except.error (RunErr.waitError e), tr)
  | (some (Except.ok (_, p2)), tr) =>
      let completed : CompletedProcess :=
        { args := p2.args.drop 1, returncode := p2.returncode, cout := ccout, cerr := ccerr }
      if check then
        some (Except.error (RunErr.calledProcessError p2.args completed.returncode ccout ccerr), tr)
      else some (Except.ok (completed, p2), tr)

/-- The run-configuration fields the facade consumes after spawning
(builder.h `RunOptions`): timeout in seconds (negative = infinite) and
the raise-on-nonzero flag. -/
structure RunOpts where
  timeout : Int := -1
  raise_on_nonzero : Bool := false
  deriving Repr, DecidableEq

/-- `run(CommandLine command, const RunOptions& options)` (builder.cpp),
from the point where the `Popen` has been spawned: drain and close the
captured streams, join, then `popen.wait(options.timeout)`.  On
TimeoutExpired: `send_signal(PSIGTERM)`, an unlimited `wait()` (whose own
error would propagate), then throw TimeoutExpired carrying the command,
the configured timeout and the captured bytes.  Otherwise the snapshot is
assembled with `completed.args = command` (the full command line), and
CalledProcessError is thrown only when `raise_on_nonzero` is set and the
exit code is nonzero.  The result carries the final child state and the
native-call trace. -/
def run_facade (command : List String) (p : Popen) (c : Child)
    (coutData cerrData : String) (opts : RunOpts) :
    Option (Except RunErr CompletedProcess × Child × List NativeCall) :=
  let ccout := if p.cout ≠ kBadPipeValue then coutData else ""
  let ccerr := if p.cerr ≠ kBadPipeValue then cerrData else ""
  let p1 := { p with cout := kBadPipeValue, cerr := kBadPipeValue }
  match wait_w p1 c opts.timeout with
  | (none, _) => none
  | (some (Except.error WaitErr.timeoutExpired), tr1) =>
      let (_, p2, c2, tr2) := send_signal_w p1 c PSIGTERM
      match wait_w p2 c2 (-1) with
      | (none, _) => none
      | (some (Except.error e), tr3) =>
          some (Except.error (RunErr.waitError e), c2, tr1 ++ tr2 ++ tr3)
      | (some (Except.ok _), tr3) =>
          some (Except.error (RunErr.timeoutExpired command opts.timeout ccout ccerr),
                c2, tr1 ++ tr2 ++ tr3)
  | (some (Except.error WaitErr.osError), tr1) =>
      some (Except.error (RunErr.waitError WaitErr.osError), c, tr1)
  | (some (Except.ok (code, _)), tr1) =>
      if opts.raise_on_nonzero ∧ code ≠ 0 then
        some (Except.error (RunErr.calledProcessError command code ccout ccerr), c, tr1)
      else
        some (Except.ok { args := command, returncode := code, cout := ccout, cerr := ccerr },
              c, tr1)

/-! ## Redirect policy, `Popen::init` and `ProcessBuilder::run_command` -/

/-- Redirect destinations (basic_types.hpp `PipeOption`). -/
inductive PipeOption
  | inherit
  | cout
  | cerr
  | specific
  | pipe
  | close
  | none
  deriving Repr, DecidableEq

/-- The `PipeVar` variant (pipevar.hpp): a redirect option, an in-process
byte source (string), an explicit handle, or stream/file pointers. -/
inductive PipeVar
  | option (o : PipeOption)
  | str (s : String)
  | handle (h : PipeHandle)
  | istreamPtr
  | ostreamPtr
  | filePtr
  deriving Repr, DecidableEq

/-- `get_pipe_option` (pipevar.hpp): the option variant yields itself, an
explicit handle yields `specific`, every other variant yields `pipe`. -/
def get_pipe_option : PipeVar → PipeOption
  | PipeVar.option o => o
  | PipeVar.handle _ => PipeOption.specific
  | _ => PipeOption.pipe

/-- Typed spawn/configuration errors surfaced by `Popen::init` and
`ProcessBuilder::run_command`: std::invalid_argument,
CommandNotFoundError, SpawnError. -/
inductive InitErr
  | invalidArgument (msg : String)
  | badVariantAccess
  | commandNotFound (program : String)
  | spawnError (msg : String)
  deriving Repr, DecidableEq

/-- Spawn configuration held by `ProcessBuilder` (builder.h). -/
structure ProcessBuilder where
  cin_pipe : PipeHandle := kBadPipeValue
  cout_pipe : PipeHandle := kBadPipeValue
  cerr_pipe : PipeHandle := kBadPipeValue
  cin_option : PipeOption := PipeOption.inherit
  cout_option : PipeOption := PipeOption.inherit
  cerr_option : PipeOption := PipeOption.inherit
  new_process_group : Bool := false
  create_no_window : Bool := false
  detached_process : Bool := false
  env : List (String × String) := []
  cwd : String := ""
  deriving Repr, DecidableEq

/-- Run configuration consumed by `Popen::init` (builder.h `RunOptions`):
one `PipeVar` per standard stream plus the spawn flags. -/
structure RunOptionsV where
  cin : PipeVar := PipeVar.option PipeOption.inherit
  cout : PipeVar := PipeVar.option PipeOption.inherit
  cerr : PipeVar := PipeVar.option PipeOption.inherit
  new_process_group : Bool := false
  create_no_window : Bool := false
  detached_process : Bool := false
  env : List (String × String) := []
  cwd : String := ""
  deriving Repr, DecidableEq

/-- The `setPipeOption` lambda inside `Popen::init` (builder.cpp): derive
the option from the variant; when it is `specific`, fetch the handle with
`std::get<PipeHandle>` — which throws std::bad_variant_access when the
variant does not actually hold a handle (only the degenerate raw
`PipeOption::specific` value reaches that case) — and reject the bad-pipe
sentinel with std::invalid_argument. -/
def setPipeOption (pipe0 : PipeHandle) (pipeVar : PipeVar) (errMsg : String) :
    Except InitErr (PipeHandle × PipeOption) :=
  let pipeOpt := get_pipe_option pipeVar
  if pipeOpt = PipeOption.specific then
    match pipeVar with
    | PipeVar.handle h =>
        if h = kBadPipeValue then Except.error (InitErr.invalidArgument errMsg)
        else Except.ok (h, pipeOpt)
    | _ => Except.error InitErr.badVariantAccess
  else Except.ok (pipe0, pipeOpt)

/-- The configuration-checking phase of `Popen::init` (builder.cpp): the
three streams are processed in order cin, cout, cerr, and the flags are
copied into the builder. -/
def init_checks (opts : RunOptionsV) : Except InitErr ProcessBuilder := do
  let (cinPipe, cinOpt) ← setPipeOption kBadPipeValue opts.cin "Bad pipe value for cin"
  let (coutPipe, coutOpt) ← setPipeOption kBadPipeValue opts.cout "Bad pipe value for cout"
  let (cerrPipe, cerrOpt) ← setPipeOption kBadPipeValue opts.cerr "Bad pipe value for cerr"
  Except.ok
    { cin_pipe := cinPipe, cout_pipe := coutPipe, cerr_pipe := cerrPipe,
      cin_option := cinOpt, cout_option := coutOpt, cerr_option := cerrOpt,
      new_process_group := opts.new_process_group,
      create_no_window := opts.create_no_window,
      detached_process := opts.detached_process,
      env := opts.env, cwd := opts.cwd }

/-- Wiring of the stdin redirect in `ProcessBuilder::run_command`
(builder_windows.cpp).  Yields the created pair (if any), the handle
handed to the child, the parent-retained handle, the next fresh handle
value, and the native calls performed.  `close` creates a pair whose read
end goes to the child and disables inheritance on the write end; `specific`
marks the caller-supplied handle inheritable (rejecting the bad sentinel,
as `pipe_set_inheritable` does); `pipe` additionally retains the write end
in the parent; anything else inherits the current stdin. -/
def wire_cin (opt : PipeOption) (sp : PipeHandle) (stdH : PipeHandle) (n : PipeHandle) :
    Except InitErr
      (Option (PipeHandle × PipeHandle) × PipeHandle × PipeHandle × PipeHandle × List NativeCall) :=
  match opt with
  | PipeOption.close =>
      Except.ok (some (n, n + 1), n, kBadPipeValue, n + 2,
        [NativeCall.pipeCreate n (n + 1), NativeCall.setInheritable (n + 1) false])
  | PipeOption.specific =>
      if sp = kBadPipeValue then
        Except.error (InitErr.invalidArgument "pipe_set_inheritable: handle is invalid")
      else Except.ok (none, sp, kBadPipeValue, n, [NativeCall.setInheritable sp true])
  | PipeOption.pipe =>
      Except.ok (some (n, n + 1), n, n + 1, n + 2,
        [NativeCall.pipeCreate n (n + 1), NativeCall.setInheritable (n + 1) false])
  | _ => Except.ok (none, stdH, kBadPipeValue, n, [])

/-- Wiring of the stdout redirect (builder_windows.cpp): the branch order
is close, pipe, specific; the child receives the write end and the parent
retains the read end for `pipe`. -/
def wire_cout (opt : PipeOption) (sp : PipeHandle) (stdH : PipeHandle) (n : PipeHandle) :
    Except InitErr
      (Option (PipeHandle × PipeHandle) × PipeHandle × PipeHandle × PipeHandle × List NativeCall) :=
  match opt with
  | PipeOption.close =>
      Except.ok (some (n, n + 1), n + 1, kBadPipeValue, n + 2,
        [NativeCall.pipeCreate n (n + 1), NativeCall.setInheritable n false])
  | PipeOption.pipe =>
      Except.ok (some (n, n + 1), n + 1, n, n + 2,
        [NativeCall.pipeCreate n (n + 1), NativeCall.setInheritable n false])
  | PipeOption.specific =>
      if sp = kBadPipeValue then
        Except.error (InitErr.invalidArgument "pipe_set_inheritable: handle is invalid")
      else Except.ok (none, sp, kBadPipeValue, n, [NativeCall.setInheritable sp true])
  | _ => Except.ok (none, stdH, kBadPipeValue, n, [])

/-- Wiring of the stderr redirect (builder_windows.cpp): branch order is
close, pipe, alias-to-cout (the child gets the current stdout child
handle), specific. -/
def wire_cerr (opt : PipeOption) (sp : PipeHandle) (stdH : PipeHandle) (childOut : PipeHandle)
    (n : PipeHandle) :
    Except InitErr
      (Option (PipeHandle × PipeHandle) × PipeHandle × PipeHandle × PipeHandle × List NativeCall) :=
  match opt with
  | PipeOption.close =>
      Except.ok (some (n, n + 1), n + 1, kBadPipeValue, n + 2,
        [NativeCall.pipeCreate n (n + 1), NativeCall.setInheritable n false])
  | PipeOption.pipe =>
      Except.ok (some (n, n + 1), n + 1, n, n + 2,
        [NativeCall.pipeCreate n (n + 1), NativeCall.setInheritable n false])
  | PipeOption.cout =>
      Except.ok (none, childOut, kBadPipeValue, n, [])
  | PipeOption.specific =>
      if sp = kBadPipeValue then
        Except.error (InitErr.invalidArgument "pipe_set_inheritable: handle is invalid")
      else Except.ok (none, sp, kBadPipeValue, n, [NativeCall.setInheritable sp true])
  | _ => Except.ok (none, stdH, kBadPipeValue, n, [])

/-- `ProcessBuilder::run_command(cmdline)` (builder_windows.cpp).  The
executable is resolved through the external `find_program` collaborator
first; an empty result raises CommandNotFoundError before anything else
happens.  Then the three redirects are realized (allocating fresh handle
values from `firstHandle`), `CreateProcess` runs, the child-side pipe
ends are closed (and close-option pairs closed fully), and the spawn
outcome decides between SpawnError and the resulting `Popen`.  `stdIn`,
`stdOut`, `stdErr` are the handles `GetStdHandle` returns; `spawnOk` and
`newPid` are the native spawn outcome.  The second component is the
native-call trace, returned on the error paths as well. -/
def run_command_w (b : ProcessBuilder) (resolver : String → String) (cmdline : List String)
    (stdIn stdOut stdErr : PipeHandle) (firstHandle : PipeHandle)
    (spawnOk : Bool) (newPid : Nat) :
    Except InitErr Popen × List NativeCall :=
  let program := resolver (cmdline.headD "")
  if program = "" then (Except.error (InitErr.commandNotFound (cmdline.headD "")), [])
  else
    match wire_cin b.cin_option b.cin_pipe stdIn firstHandle with
    | Except.error e => (Except.error e, [])
    | Except.ok (cinPair, _childIn, pCin, n1, tr1) =>
      match wire_cout b.cout_option b.cout_pipe stdOut n1 with
      | Except.error e => (Except.error e, tr1)
      | Except.ok (coutPair, childOut0, pCout, n2, tr2) =>
        match wire_cerr b.cerr_option b.cerr_pipe stdErr childOut0 n2 with
        | Except.error e => (Except.error e, tr1 ++ tr2)
        | Except.ok (cerrPair, childErr, pCerr, _n3, tr3) =>
          -- the cout-to-cerr alias redirects the child stdout handle;
          -- the STARTUPINFO handles are not traced further
          let _hStdOutput := if b.cout_option = PipeOption.cerr then childErr else childOut0
          let procPid := if spawnOk then newPid else 0
          let trClose :=
            (match cinPair with
             | some pr =>
                 [NativeCall.closeHandle pr.1] ++
                   (if b.cin_option = PipeOption.close then [NativeCall.closeHandle pr.2] else [])
             | none => []) ++
            (match coutPair with
             | some pr =>
                 [NativeCall.closeHandle pr.2] ++
                   (if b.cout_option = PipeOption.close then [NativeCall.closeHandle pr.1] else [])
             | none => []) ++
            (match cerrPair with
             | some pr =>
                 [NativeCall.closeHandle pr.2] ++
                   (if b.cerr_option = PipeOption.close then [NativeCall.closeHandle pr.1] else [])
             | none => [])
          let process : Popen :=
            { cin := pCin, cout := pCout, cerr := pCerr, pid := procPid,
              returncode := kBadReturnCode, args := cmdline, softKill := false }
          let tr := tr1 ++ tr2 ++ tr3 ++ [NativeCall.createProcess program] ++ trClose
          if spawnOk then (Except.ok process, tr)
          else (Except.error (InitErr.spawnError "CreateProcess failed"), tr)

/-- `Popen::init(command, options)` up to and including the spawn
(builder.cpp): the stream configuration is validated and copied into a
`ProcessBuilder`, and only then does `run_command` run.  A failed check
surfaces with an empty native-call trace: no spawn is attempted and no
handle is allocated. -/
def popen_init (command : List String) (opts : RunOptionsV) (resolver : String → String)
    (stdIn stdOut stdErr : PipeHandle) (firstHandle : PipeHandle)
    (spawnOk : Bool) (newPid : Nat) :
    Except InitErr Popen × List NativeCall :=
  match init_checks opts with
  | Except.error e => (Except.error e, [])
  | Except.ok b => run_command_w b resolver command stdIn stdOut stdErr firstHandle spawnOk newPid

/-- Discriminator for the std::invalid_argument error kind. -/
def isInvalidArgument : InitErr → Bool
  | InitErr.invalidArgument _ => true
  | _ => false

/-! ## Concrete fixtures -/

/-- A child process that has already exited with code 0 and reacts to no
console event. -/
def childIdle : Child :=
  { exitTime := some 0, exitCode := 0, breakExits := false, breakCode := 0,
    intExits := false, intCode := 0, queryFails := false, waitFails := false, childIds := [] }

/-- A `Popen` whose exit status 0 is already cached. -/
def popenExitZero : Popen :=
  { cin := -1, cout := -1, cerr := -1, pid := 5, returncode := 0, args := ["true"],
    softKill := false }

/-- A `Popen` whose exit status is not yet known. -/
def popenRunning : Popen :=
  { cin := -1, cout := -1, cerr := -1, pid := 42, returncode := kBadReturnCode,
    args := ["sleep", "10"], softKill := false }

/-- A child process that would run forever. -/
def childRunning : Child := { childIdle with exitTime := none }

/-- A `Popen` with a cached exit status of 7. -/
def popenCached : Popen :=
  { cin := -1, cout := -1, cerr := -1, pid := 9, returncode := 7, args := ["w"],
    softKill := false }

/-- A freshly spawned `Popen` for the timeout scenario, with live capture
pipes. -/
def popenSleeping : Popen :=
  { cin := -1, cout := 10, cerr := 12, pid := 7, returncode := kBadReturnCode,
    args := ["sleep", "3"], softKill := false }

/-- A child that would exit naturally after 3000 ms but exits with code 1
when it receives a console BREAK event. -/
def childSleeping : Child :=
  { exitTime := some 3000, exitCode := 0, breakExits := true, breakCode := 1,
    intExits := false, intCode := 0, queryFails := false, waitFails := false, childIds := [] }

/-- A freshly spawned `Popen` for a two-element command line. -/
def popenProgA : Popen :=
  { cin := -1, cout := -1, cerr := -1, pid := 1, returncode := kBadReturnCode,
    args := ["prog", "a"], softKill := false }

/-! ## Shared lemmas -/

/-- A successful `wait_w` leaves `returncode` equal to the returned code,
the returned code is a real exit status (never the sentinel), and no
field other than `returncode` changes (in particular `args`). -/
lemma wait_w_ok_cached : ∀ (p : Popen) (c : Child) (timeout : Int) (code : Int) (p2 : Popen),
    (wait_w p c timeout).1 = some (Except.ok (code, p2)) →
    p2.returncode = code ∧ code ≠ kBadReturnCode ∧ p2.args = p.args := by
  intro p c timeout code p2 h
  unfold wait_w at h
  by_cases hc : p.returncode ≠ kBadReturnCode
  · simp [hc] at h
    obtain ⟨h1, h2⟩ := h
    subst h1
    subst h2
    exact ⟨rfl, hc, rfl⟩
  · simp [hc] at h
    by_cases hw : c.waitFails
    · simp [hw] at h
    · simp [hw] at h
      rcases hms : msOfTimeout timeout with _ | m <;>
        rcases het : c.exitTime with _ | t <;>
          simp [hms, het, finishWait] at h
      · rcases hq : c.queryFails <;> simp [hq] at h
        obtain ⟨h1, h2⟩ := h
        subst h1
        subst h2
        refine ⟨rfl, ?_, rfl⟩
        unfold kBadReturnCode
        omega
      · by_cases hle : t ≤ m
        · simp [hle, finishWait] at h
          rcases hq : c.queryFails <;> simp [hq] at h
          obtain ⟨h1, h2⟩ := h
          subst h1
          subst h2
          refine ⟨rfl, ?_, rfl⟩
          unfold kBadReturnCode
          omega
        · simp [hle] at h

/-- `setPipeOption` succeeds on every variant other than the bad-handle
and the degenerate raw `specific` option. -/
lemma setPipeOption_ok_of_good : ∀ (p0 : PipeHandle) (v : PipeVar) (m : String),
    v ≠ PipeVar.handle kBadPipeValue → v ≠ PipeVar.option PipeOption.specific →
    ∃ r, setPipeOption p0 v m = Except.ok r := by
  intro p0 v m hv hd
  rcases v with o | s | h | _ | _ | _
  · have ho : o ≠ PipeOption.specific := by
      intro he
      exact hd (by rw [he])
    exact ⟨(p0, o), by simp [setPipeOption, get_pipe_option, ho]⟩
  · exact ⟨(p0, PipeOption.pipe), by simp [setPipeOption, get_pipe_option]⟩
  · have hh : h ≠ kBadPipeValue := by
      intro he
      exact hv (by rw [he])
    exact ⟨(h, PipeOption.specific), by simp [setPipeOption, get_pipe_option, hh]⟩
  · exact ⟨(p0, PipeOption.pipe), by simp [setPipeOption, get_pipe_option]⟩
  · exact ⟨(p0, PipeOption.pipe), by simp [setPipeOption, get_pipe_option]⟩
  · exact ⟨(p0, PipeOption.pipe), by simp [setPipeOption, get_pipe_option]⟩

/-- When the configuration checks of `Popen::init` succeed, none of the
three streams carried the bad-handle sentinel. -/
lemma init_checks_ok_no_bad : ∀ (opts : RunOptionsV) (b : ProcessBuilder),
    init_checks opts = Except.ok b →
    opts.cin ≠ PipeVar.handle kBadPipeValue ∧
    opts.cout ≠ PipeVar.handle kBadPipeValue ∧
    opts.cerr ≠ PipeVar.handle kBadPipeValue := by
  intro opts b h
  refine ⟨?_, ?_, ?_⟩ <;> intro hbad
  · rw [init_checks, hbad] at h
    simp [setPipeOption, get_pipe_option, Bind.bind, Except.bind] at h
  · rcases hc : setPipeOption kBadPipeValue opts.cin "Bad pipe value for cin" with e | r
    · rw [init_checks, hc] at h
      simp [Bind.bind, Except.bind] at h
    · rw [init_checks, hc, hbad] at h
      obtain ⟨rh, ro⟩ := r
      simp [setPipeOption, get_pipe_option, Bind.bind, Except.bind] at h
  · rcases hc : setPipeOption kBadPipeValue opts.cin "Bad pipe value for cin" with e | r
    · rw [init_checks, hc] at h
      simp [Bind.bind, Except.bind] at h
    · rcases hc2 : setPipeOption kBadPipeValue opts.cout "Bad pipe value for cout" with e2 | r2
      · rw [init_checks, hc, hc2] at h
        obtain ⟨rh, ro⟩ := r
        simp [Bind.bind, Except.bind] at h
      · rw [init_checks, hc, hc2, hbad] at h
        obtain ⟨rh, ro⟩ := r
        obtain ⟨rh2, ro2⟩ := r2
        simp [setPipeOption, get_pipe_option, Bind.bind, Except.bind] at h

/-! ## Claim theorems -/

/-- C1: the claim states that `run(popen, check)` with `check = true`
raises a Called-process error if and only if the exit code is nonzero,
returning the snapshot without raising when the exit code is zero.  The
code however throws whenever `check` is set, with no test of the exit
code: evaluated at a process whose cached exit code is 0 and
`check = true`, the overload throws a CalledProcessError carrying exit
code 0 instead of returning the snapshot. -/
theorem c1_run_popen_check_throws_on_zero_exit :
    run_popen popenExitZero childIdle "" "" true =
      some (Except.error (RunErr.calledProcessError ["true"] 0 "" ""), []) ∧
    popenExitZero.returncode = 0 :=
  ⟨rfl, rfl⟩

/-- C2: the claim states that a child terminated by a kill-class signal
reports exit code −N (here −9), the signal-emulation layer included.  On
the handle/console-event platform, `kill()` hard-terminates the process
with `TerminateProcess(handle, 137)`, and the subsequent `wait()` reports
exit code 137 — a positive value, not −9. -/
theorem c2_kill_reports_137_not_minus_9 :
    kill_w popenRunning childRunning =
      (true, popenRunning, { childRunning with exitTime := some 0, exitCode := 137 },
       [NativeCall.getChildProcessIds, NativeCall.terminateProcess 137]) ∧
    (wait_w popenRunning { childRunning with exitTime := some 0, exitCode := 137 } (-1)).1 =
      some (Except.ok (137, { popenRunning with returncode := 137 })) ∧
    (137 : Int) ≠ -9 :=
  ⟨rfl, rfl, by decide⟩

/-- C3: the claim states that the background loop of
`pipe_ignore_and_close` terminates once the pipe reaches end-of-stream
and then closes the handle.  The loop condition is
`pipe_read(...) >= 0`, and at end-of-stream the POSIX read returns 0,
which satisfies the condition: starting from any pipe whose writer has
closed (any number of pending bytes, end-of-stream once they are
drained), the loop never exits, for any number of iterations — so the
handle is never closed. -/
theorem c3_ignore_loop_never_exits_at_eof :
    ∀ (fuel : Nat) (pending : Nat),
      pipe_ignore_loop fuel
        { pending := pending, writerClosed := true, nonBlocking := false, badHandle := false } =
        none := by
  intro fuel
  induction fuel with
  | zero => intro pending; rfl
  | succ n ih =>
      intro pending
      by_cases hp : 0 < pending
      · simp [pipe_ignore_loop, posix_pipe_read, hp, ih]
      · simp [pipe_ignore_loop, posix_pipe_read, hp, ih]

/-- C4: once a `wait` has observed the exit status (returning `ok`), the
cached `returncode` equals the returned code and every subsequent `wait`
— with any timeout and any state of the native process — returns the
identical code with an empty native-call trace, and every subsequent
`poll` returns `true` with an empty trace: wait/poll become pure reads
and never re-query the OS. -/
theorem c4_wait_poll_pure_after_exit :
    ∀ (p : Popen) (c : Child) (timeout : Int) (code : Int) (p2 : Popen)
      (c2 : Child) (t2 : Int) (c3 : Child),
      (wait_w p c timeout).1 = some (Except.ok (code, p2)) →
      wait_w p2 c2 t2 = (some (Except.ok (code, p2)), []) ∧
      poll_w p2 c3 = (Except.ok (true, p2), []) := by
  intro p c timeout code p2 c2 t2 c3 h
  obtain ⟨hrc, hcode, _⟩ := wait_w_ok_cached p c timeout code p2 h
  constructor
  · unfold wait_w
    rw [hrc]
    simp [hcode]
  · unfold poll_w
    rw [hrc]
    simp [hcode]

/-- Witness for C4 at a concrete cached process. -/
theorem c4_wait_poll_pure_after_exit_witness :
    wait_w popenCached childIdle 5 = (some (Except.ok (7, popenCached)), []) ∧
    poll_w popenCached childIdle = (Except.ok (true, popenCached), []) :=
  c4_wait_poll_pure_after_exit popenCached childIdle 5 7 popenCached childIdle 5 childIdle rfl

/-- C5: for every pipe endpoint state and positive buffer size, both
platform implementations of `pipe_read` return 0 only at end-of-stream
(a would-block condition on a non-blocking handle yields −1, never 0),
and errors (bad handle) are reported as the distinct negative result −1
on both platforms. -/
theorem c5_pipe_read_zero_reserved_for_eof :
    ∀ (st : PipeState) (size : Nat), 0 < size →
      ((posix_pipe_read st size).1 = ReadRes.val 0 → atEof st) ∧
      ((win_pipe_read st size).1 = ReadRes.val 0 → atEof st) ∧
      (st.badHandle = true →
        (posix_pipe_read st size).1 = ReadRes.val (-1) ∧
        (win_pipe_read st size).1 = ReadRes.val (-1)) ∧
      (st.pending = 0 ∧ st.writerClosed = false ∧ st.nonBlocking = true ∧ st.badHandle = false →
        (posix_pipe_read st size).1 = ReadRes.val (-1) ∧
        (win_pipe_read st size).1 = ReadRes.val (-1)) := by
  intro st size hsize
  rcases st with ⟨pending, wc, nb, bh⟩
  have hs : size ≠ 0 := Nat.pos_iff_ne_zero.mp hsize
  cases bh <;> cases wc <;> cases nb <;>
    by_cases hp : 0 < pending <;>
      simp_all [posix_pipe_read, win_pipe_read, winReadFile, atEof] <;>
        omega

/-- Witness for C5 at an end-of-stream endpoint and buffer size 8. -/
theorem c5_pipe_read_zero_reserved_for_eof_witness :
    (0 : Nat) < 8 ∧
    (((posix_pipe_read
          { pending := 0, writerClosed := true, nonBlocking := false, badHandle := false } 8).1 =
            ReadRes.val 0 →
        atEof { pending := 0, writerClosed := true, nonBlocking := false, badHandle := false }) ∧
      ((win_pipe_read
          { pending := 0, writerClosed := true, nonBlocking := false, badHandle := false } 8).1 =
            ReadRes.val 0 →
        atEof { pending := 0, writerClosed := true, nonBlocking := false, badHandle := false }) ∧
      (({ pending := 0, writerClosed := true, nonBlocking := false,
          badHandle := false } : PipeState).badHandle = true →
        (posix_pipe_read
            { pending := 0, writerClosed := true, nonBlocking := false, badHandle := false } 8).1 =
          ReadRes.val (-1) ∧
        (win_pipe_read
            { pending := 0, writerClosed := true, nonBlocking := false, badHandle := false } 8).1 =
          ReadRes.val (-1)) ∧
      (({ pending := 0, writerClosed := true, nonBlocking := false,
          badHandle := false } : PipeState).pending = 0 ∧
        ({ pending := 0, writerClosed := true, nonBlocking := false,
           badHandle := false } : PipeState).writerClosed = false ∧
        ({ pending := 0, writerClosed := true, nonBlocking := false,
           badHandle := false } : PipeState).nonBlocking = true ∧
        ({ pending := 0, writerClosed := true, nonBlocking := false,
           badHandle := false } : PipeState).badHandle = false →
        (posix_pipe_read
            { pending := 0, writerClosed := true, nonBlocking := false, badHandle := false } 8).1 =
          ReadRes.val (-1) ∧
        (win_pipe_read
            { pending := 0, writerClosed := true, nonBlocking := false, badHandle := false } 8).1 =
          ReadRes.val (-1))) :=
  ⟨by decide,
   c5_pipe_read_zero_reserved_for_eof
     { pending := 0, writerClosed := true, nonBlocking := false, badHandle := false } 8
     (by decide)⟩

/-- C6: when the configured timeout is finite and the child does not exit
within it, the run facade issues a terminate request (a console BREAK
event, this platform realization of `send_signal(PSIGTERM)`), performs an
unlimited wait that reaps the child (final child state exited, no
zombie), and raises a TimeoutExpired error carrying the configured
timeout value and the stdout/stderr bytes captured before the cutoff. -/
theorem c6_run_timeout_terminates_then_raises :
    ∀ (command : List String) (p : Popen) (c : Child) (coutData cerrData : String)
      (opts : RunOpts),
      p.returncode = kBadReturnCode →
      0 ≤ opts.timeout →
      (∀ t, c.exitTime = some t → opts.timeout.toNat * 1000 < t) →
      c.breakExits = true →
      c.queryFails = false →
      c.waitFails = false →
      run_facade command p c coutData cerrData opts =
        some (Except.error (RunErr.timeoutExpired command opts.timeout
                (if p.cout ≠ kBadPipeValue then coutData else "")
                (if p.cerr ≠ kBadPipeValue then cerrData else "")),
              { c with exitTime := some 0, exitCode := c.breakCode },
              [NativeCall.waitForSingleObject (some (opts.timeout.toNat * 1000)),
               NativeCall.genCtrlBreak p.pid,
               NativeCall.waitForSingleObject none,
               NativeCall.getExitCodeProcess]) := by
  intro command p c coutData cerrData opts hrc hto hnx hbrk hq hw
  have hms : msOfTimeout opts.timeout = some (opts.timeout.toNat * 1000) := by
    unfold msOfTimeout
    simp [not_lt.mpr hto]
  have hmsneg : msOfTimeout (-1) = none := rfl
  unfold run_facade
  rcases het : c.exitTime with _ | t
  · simp [wait_w, hrc, hms, het, hw, hq, hbrk, send_signal_w, PSIGTERM, PSIGKILL, PSIGINT,
      kBadReturnCode, finishWait, hmsneg]
  · have hnle : ¬ (t ≤ opts.timeout.toNat * 1000) := not_le.mpr (hnx t het)
    simp [wait_w, hrc, hms, het, hw, hq, hbrk, send_signal_w, PSIGTERM, PSIGKILL, PSIGINT,
      kBadReturnCode, finishWait, hmsneg, hnle]

/-- Witness for C6: a 1-second timeout against a child that would sleep
3 seconds but dies on the console BREAK event. -/
theorem c6_run_timeout_terminates_then_raises_witness :
    run_facade ["sleep", "3"] popenSleeping childSleeping "out" "err"
        { timeout := 1, raise_on_nonzero := false } =
      some (Except.error (RunErr.timeoutExpired ["sleep", "3"] 1 "out" "err"),
            { childSleeping with exitTime := some 0, exitCode := 1 },
            [NativeCall.waitForSingleObject (some 1000),
             NativeCall.genCtrlBreak 7,
             NativeCall.waitForSingleObject none,
             NativeCall.getExitCodeProcess]) := by
  have h := c6_run_timeout_terminates_then_raises ["sleep", "3"] popenSleeping childSleeping
    "out" "err" { timeout := 1, raise_on_nonzero := false } rfl (by decide)
    (by
      intro t ht
      simp [childSleeping] at ht
      subst ht
      decide)
    rfl rfl rfl
  simpa [popenSleeping, childSleeping] using h

/-- C7 counterexample: the claim states the snapshot command-line field
equals the spawn command minus element 0 on both run paths.  On the
`run(command, options)` path a successful run of ["prog", "a"] yields a
snapshot whose `args` is the full ["prog", "a"], not ["a"]. -/
theorem c7_facade_keeps_full_args_counterexample :
    run_facade ["prog", "a"] popenProgA childIdle "" "" { timeout := -1, raise_on_nonzero := false } =
      some (Except.ok { args := ["prog", "a"], returncode := 0, cout := "", cerr := "" },
            childIdle,
            [NativeCall.waitForSingleObject none, NativeCall.getExitCodeProcess]) ∧
    (["prog", "a"] : List String) ≠ ["a"] :=
  ⟨rfl, by decide⟩

/-- C7 (amended): every successful `run(command, options)` snapshot
stores the full command line, element 0 included, while every successful
`run(popen, check)` snapshot stores the spawned command line minus
element 0. -/
theorem c7_snapshot_args_per_overload :
    (∀ (command : List String) (p : Popen) (c : Child) (coutData cerrData : String)
        (opts : RunOpts) (cp : CompletedProcess) (c2 : Child) (tr : List NativeCall),
        run_facade command p c coutData cerrData opts = some (Except.ok cp, c2, tr) →
        cp.args = command) ∧
    (∀ (p : Popen) (c : Child) (coutData cerrData : String) (check : Bool)
        (cp : CompletedProcess) (p2 : Popen) (tr : List NativeCall),
        run_popen p c coutData cerrData check = some (Except.ok (cp, p2), tr) →
        cp.args = p.args.drop 1) := by
  constructor
  · intro command p c coutData cerrData opts cp c2 tr h
    simp only [run_facade] at h
    generalize hW : wait_w { p with cout := kBadPipeValue, cerr := kBadPipeValue } c opts.timeout = wres at h
    obtain ⟨res, tr1⟩ := wres
    rcases res with _ | eres
    · simp at h
    · rcases eres with e | okv
      · rcases e with _ | _
        · generalize hS :
            send_signal_w { p with cout := kBadPipeValue, cerr := kBadPipeValue } c PSIGTERM = sres at h
          obtain ⟨r1, p3, c3, tr2⟩ := sres
          dsimp only at h
          generalize hW2 : wait_w p3 c3 (-1) = wres2 at h
          obtain ⟨res2, tr3⟩ := wres2
          rcases res2 with _ | eres2
          · simp at h
          · rcases eres2 with e2 | okv2 <;> simp at h
        · simp at h
      · obtain ⟨code, p3⟩ := okv
        dsimp only at h
        split at h
        · simp at h
        · simp at h
          rw [← h.1]
  · intro p c coutData cerrData check cp p2 tr h
    simp only [run_popen] at h
    generalize hW : wait_w { p with cout := kBadPipeValue, cerr := kBadPipeValue } c (-1) = wres at h
    obtain ⟨res, tr1⟩ := wres
    rcases res with _ | eres
    · simp at h
    · rcases eres with e | okv
      · simp at h
      · obtain ⟨code, p3⟩ := okv
        dsimp only at h
        split at h
        · simp at h
        · simp at h
          have hargs : p3.args = p.args := by
            have hfst : (wait_w { p with cout := kBadPipeValue, cerr := kBadPipeValue } c (-1)).1 =
                some (Except.ok (code, p3)) := by rw [hW]
            simpa using (wait_w_ok_cached _ _ _ _ _ hfst).2.2
          obtain ⟨⟨h1, h2⟩, h3⟩ := h
          rw [← h1, hargs]
          simp [List.drop_one]

/-- Witness for C7 (amended), both overloads run on ["prog", "a"]. -/
theorem c7_snapshot_args_per_overload_witness :
    ({ args := ["prog", "a"], returncode := 0, cout := "", cerr := "" } : CompletedProcess).args =
        ["prog", "a"] ∧
    ({ args := ["a"], returncode := 0, cout := "", cerr := "" } : CompletedProcess).args =
        popenProgA.args.drop 1 :=
  ⟨c7_snapshot_args_per_overload.1 ["prog", "a"] popenProgA childIdle "" ""
      { timeout := -1, raise_on_nonzero := false }
      { args := ["prog", "a"], returncode := 0, cout := "", cerr := "" } childIdle
      [NativeCall.waitForSingleObject none, NativeCall.getExitCodeProcess] rfl,
   c7_snapshot_args_per_overload.2 popenProgA childIdle "" "" false
      { args := ["a"], returncode := 0, cout := "", cerr := "" }
      { popenProgA with returncode := 0 }
      [NativeCall.waitForSingleObject none, NativeCall.getExitCodeProcess] rfl⟩

/-- C8: when the exit status is already cached, `send_signal` (for any
signal number) returns `false`, the `Popen` state and the native child
are unchanged, and the only observable native activity is printing the
last error text — no child enumeration, no termination, no console
event.  `terminate` and `kill`, defined through `send_signal`, behave
identically. -/
theorem c8_send_signal_noop_after_exit :
    ∀ (p : Popen) (c : Child) (signum : Int),
      p.returncode ≠ kBadReturnCode →
      send_signal_w p c signum = (false, p, c, [NativeCall.printErrorMsg]) ∧
      terminate_w p c = (false, p, c, [NativeCall.printErrorMsg]) ∧
      kill_w p c = (false, p, c, [NativeCall.printErrorMsg]) := by
  intro p c signum h
  refine ⟨?_, ?_, ?_⟩
  · simp [send_signal_w, h]
  · simp [terminate_w, send_signal_w, h]
  · unfold kill_w
    by_cases hs : p.softKill <;> simp [hs, send_signal_w, h]

/-- Witness for C8 at a concrete exited process and the kill signal. -/
theorem c8_send_signal_noop_after_exit_witness :
    send_signal_w popenCached childIdle PSIGKILL =
        (false, popenCached, childIdle, [NativeCall.printErrorMsg]) ∧
    terminate_w popenCached childIdle = (false, popenCached, childIdle, [NativeCall.printErrorMsg]) ∧
    kill_w popenCached childIdle = (false, popenCached, childIdle, [NativeCall.printErrorMsg]) :=
  c8_send_signal_noop_after_exit popenCached childIdle PSIGKILL (by decide)

/-- C9: when the external path-resolution collaborator cannot resolve
the executable, `run_command` raises the Not-found error immediately:
the native-call trace is empty, so no pipe pair is allocated, no handle
is touched and no native spawn is attempted. -/
theorem c9_not_found_before_any_allocation :
    ∀ (b : ProcessBuilder) (resolver : String → String) (cmdline : List String)
      (stdIn stdOut stdErr firstHandle : PipeHandle) (spawnOk : Bool) (newPid : Nat),
      resolver (cmdline.headD "") = "" →
      run_command_w b resolver cmdline stdIn stdOut stdErr firstHandle spawnOk newPid =
        (Except.error (InitErr.commandNotFound (cmdline.headD "")), []) := by
  intro b resolver cmdline stdIn stdOut stdErr firstHandle spawnOk newPid h
  unfold run_command_w
  rw [h]
  simp

/-- Witness for C9 with a resolver that finds nothing. -/
theorem c9_not_found_before_any_allocation_witness :
    run_command_w {} (fun _ => "") ["nosuch"] 100 101 102 20 true 33 =
      (Except.error (InitErr.commandNotFound "nosuch"), []) :=
  c9_not_found_before_any_allocation {} (fun _ => "") ["nosuch"] 100 101 102 20 true 33 rfl

/-- C10 counterexample: the claim states that whenever some stream is an
explicit handle equal to the bad-pipe sentinel, the constructor throws
std::invalid_argument.  With cin configured as the degenerate raw
`specific` option and cout as the bad-sentinel handle, `Popen::init`
instead throws std::bad_variant_access (from `std::get` on a variant not
holding a handle) — still before any spawn, but not invalid_argument. -/
theorem c10_degenerate_specific_counterexample :
    popen_init ["x"]
        { cin := PipeVar.option PipeOption.specific, cout := PipeVar.handle kBadPipeValue }
        (fun s => s) 100 101 102 20 true 33 =
      (Except.error InitErr.badVariantAccess, []) ∧
    isInvalidArgument InitErr.badVariantAccess = false :=
  ⟨rfl, rfl⟩

/-- C10 (amended): whenever some stream carries the bad-sentinel explicit
handle, `Popen::init` fails before any spawn attempt and before any
handle allocation (empty native-call trace); the error is
std::invalid_argument provided no earlier-checked stream carries the
degenerate raw `specific` option (which raises std::bad_variant_access
instead, still before any spawn); and valid explicit handles pass the
check unchanged into the builder, with the `specific` option recorded. -/
theorem c10_bad_specific_handle_rejected_before_spawn :
    ∀ (opts : RunOptionsV) (command : List String) (resolver : String → String)
      (stdIn stdOut stdErr firstHandle : PipeHandle) (spawnOk : Bool) (newPid : Nat),
      ((opts.cin = PipeVar.handle kBadPipeValue ∨ opts.cout = PipeVar.handle kBadPipeValue ∨
          opts.cerr = PipeVar.handle kBadPipeValue) →
        ∃ e, popen_init command opts resolver stdIn stdOut stdErr firstHandle spawnOk newPid =
          (Except.error e, [])) ∧
      ((opts.cin = PipeVar.handle kBadPipeValue ∨ opts.cout = PipeVar.handle kBadPipeValue ∨
          opts.cerr = PipeVar.handle kBadPipeValue) →
        opts.cin ≠ PipeVar.option PipeOption.specific →
        opts.cout ≠ PipeVar.option PipeOption.specific →
        ∃ msg, popen_init command opts resolver stdIn stdOut stdErr firstHandle spawnOk newPid =
          (Except.error (InitErr.invalidArgument msg), [])) ∧
      (∀ h1 h2 h3, h1 ≠ kBadPipeValue → h2 ≠ kBadPipeValue → h3 ≠ kBadPipeValue →
        init_checks { opts with cin := PipeVar.handle h1, cout := PipeVar.handle h2,
                                cerr := PipeVar.handle h3 } =
          Except.ok { cin_pipe := h1, cout_pipe := h2, cerr_pipe := h3,
                      cin_option := PipeOption.specific, cout_option := PipeOption.specific,
                      cerr_option := PipeOption.specific,
                      new_process_group := opts.new_process_group,
                      create_no_window := opts.create_no_window,
                      detached_process := opts.detached_process,
                      env := opts.env, cwd := opts.cwd }) := by
  intro opts command resolver stdIn stdOut stdErr firstHandle spawnOk newPid
  refine ⟨?_, ?_, ?_⟩
  · intro hbad
    rcases hi : init_checks opts with e | b
    · exact ⟨e, by simp [popen_init, hi]⟩
    · obtain ⟨n1, n2, n3⟩ := init_checks_ok_no_bad opts b hi
      rcases hbad with hb | hb | hb
      · exact absurd hb n1
      · exact absurd hb n2
      · exact absurd hb n3
  · intro hbad hd1 hd2
    by_cases h1 : opts.cin = PipeVar.handle kBadPipeValue
    · refine ⟨"Bad pipe value for cin", ?_⟩
      have hic : init_checks opts =
          Except.error (InitErr.invalidArgument "Bad pipe value for cin") := by
        rw [init_checks, h1]
        simp [setPipeOption, get_pipe_option, Bind.bind, Except.bind]
      simp [popen_init, hic]
    · obtain ⟨r1, hr1⟩ :=
        setPipeOption_ok_of_good kBadPipeValue opts.cin "Bad pipe value for cin" h1 hd1
      by_cases h2 : opts.cout = PipeVar.handle kBadPipeValue
      · refine ⟨"Bad pipe value for cout", ?_⟩
        have hic : init_checks opts =
            Except.error (InitErr.invalidArgument "Bad pipe value for cout") := by
          rw [init_checks, hr1, h2]
          obtain ⟨rh, ro⟩ := r1
          simp [setPipeOption, get_pipe_option, Bind.bind, Except.bind]
        simp [popen_init, hic]
      · have h3 : opts.cerr = PipeVar.handle kBadPipeValue := by
          rcases hbad with hb | hb | hb
          · exact absurd hb h1
          · exact absurd hb h2
          · exact hb
        obtain ⟨r2, hr2⟩ :=
          setPipeOption_ok_of_good kBadPipeValue opts.cout "Bad pipe value for cout" h2 hd2
        refine ⟨"Bad pipe value for cerr", ?_⟩
        have hic : init_checks opts =
            Except.error (InitErr.invalidArgument "Bad pipe value for cerr") := by
          rw [init_checks, hr1, hr2, h3]
          obtain ⟨rh, ro⟩ := r1
          obtain ⟨rh2, ro2⟩ := r2
          simp [setPipeOption, get_pipe_option, Bind.bind, Except.bind]
        simp [popen_init, hic]
  · intro h1 h2 h3 hn1 hn2 hn3
    rw [init_checks]
    simp [setPipeOption, get_pipe_option, hn1, hn2, hn3, Bind.bind, Except.bind]

/-- Witness for C10 (amended): a bad cin handle is rejected with
invalid_argument and an empty trace; valid handles 5, 6, 7 reach the
builder unchanged. -/
theorem c10_bad_specific_handle_rejected_before_spawn_witness :
    (∃ e, popen_init ["x"] { cin := PipeVar.handle kBadPipeValue } (fun s => s)
        100 101 102 20 true 33 = (Except.error e, [])) ∧
    (∃ msg, popen_init ["x"] { cin := PipeVar.handle kBadPipeValue } (fun s => s)
        100 101 102 20 true 33 = (Except.error (InitErr.invalidArgument msg), [])) ∧
    init_checks { cin := PipeVar.handle 5, cout := PipeVar.handle 6, cerr := PipeVar.handle 7 } =
      Except.ok { cin_pipe := 5, cout_pipe := 6, cerr_pipe := 7,
                  cin_option := PipeOption.specific, cout_option := PipeOption.specific,
                  cerr_option := PipeOption.specific,
                  new_process_group := false, create_no_window := false,
                  detached_process := false, env := [], cwd := "" } :=
  ⟨(c10_bad_specific_handle_rejected_before_spawn
      { cin := PipeVar.handle kBadPipeValue } ["x"] (fun s => s) 100 101 102 20 true 33).1
      (Or.inl rfl),
   (c10_bad_specific_handle_rejected_before_spawn
      { cin := PipeVar.handle kBadPipeValue } ["x"] (fun s => s) 100 101 102 20 true 33).2.1
      (Or.inl rfl) (by decide) (by decide),
   (c10_bad_specific_handle_rejected_before_spawn
      { cin := PipeVar.handle kBadPipeValue } ["x"] (fun s => s) 100 101 102 20 true 33).2.2
      5 6 7 (by decide) (by decide) (by decide)⟩

end Subproc
